import Mathlib

/-!
Shallow embedding of the character-chatbot program (src/Main2.py) and proofs
of the specification claims about it.

The program keeps two relational tables, `character` and `conversation`,
offers CRUD over characters, and a conversation engine
(`chat_with_character`) that assembles a context prompt from all prior
turns of a user, calls an external generator, and persists the resulting
turn.  External effects (the HTTP generator call, the speech-to-text
service, commit failures of the store) are modelled as explicit input
parameters describing the outcome the external world produced.
-/

namespace Chatbot

/-- Row of the `character` table: surrogate id, unique name, description,
prompt template (Main2.py lines 39-43). -/
structure Character where
  id : Nat
  name : String
  description : String
  prompt_template : String
  deriving Repr, DecidableEq

/-- Row of the `conversation` table (Main2.py lines 45-53): surrogate id,
character reference, the user input, the bot response, a write-time
timestamp, an optional chat session id and the numeric user id. -/
structure Conversation where
  id : Nat
  character_id : Nat
  user_input : String
  bot_response : String
  timestamp : Nat
  chat_id : Option String
  user_id : Int
  deriving Repr, DecidableEq

/-- Durable state of the persistence store: the two tables plus the
autoincrement counters that assign surrogate ids. -/
structure Store where
  characters : List Character
  conversations : List Conversation
  next_character_id : Nat
  next_conversation_id : Nat
  deriving Repr, DecidableEq

/-- Store with no rows at all. -/
def emptyStore : Store := ⟨[], [], 1, 1⟩

/-- Python truthiness of an optional string: `None` and the empty string
are falsy, any other string is truthy. -/
def truthyOptStr : Option String → Bool
  | none => false
  | some s => !s.isEmpty

/-- Python truthiness of an optional integer: `None` and `0` are falsy. -/
def truthyOptInt : Option Int → Bool
  | none => false
  | some n => !(n == 0)

/-- A single-quote character as a string, used to spell the messages of the
source that contain quotes. -/
def sq : String := String.singleton (Char.ofNat 39)

/-- Embedding of `Character.query.filter_by(name=name).first()`. -/
def findCharacter (s : Store) (name : String) : Option Character :=
  s.characters.find? (fun c => c.name == name)

/-- Append one character row, drawing its id from the autoincrement
counter (the `db.session.add` + commit of a new `Character`). -/
def insertCharacter (s : Store) (name description prompt_template : String) : Store :=
  { s with
    characters := s.characters ++ [⟨s.next_character_id, name, description, prompt_template⟩],
    next_character_id := s.next_character_id + 1 }

/-- Seed data of `add_predefined_characters` (Main2.py lines 85-89). -/
def predefined_characters : List (String × String × String) :=
  [("Chuck the Clown",
    "A funny clown who tells jokes and entertains.",
    "You are Chuck the Clown, always ready with a joke and entertainment. Be upbeat, silly, and include jokes in your responses."),
   ("Sarcastic Pirate",
    "A pirate with a sharp tongue and a love for treasure.",
    "You are a Sarcastic Pirate, ready to share your tales of adventure. Use pirate slang, be witty, sarcastic, and mention your love for treasure and the sea."),
   ("Professor Sage",
    "A wise professor knowledgeable about many subjects.",
    "You are Professor Sage, sharing wisdom and knowledge. Be scholarly, thoughtful, and provide educational information in your responses.")]

/-- One loop iteration of `add_predefined_characters` (lines 91-95): insert
the predefined character unless a character of that name already exists. -/
def seedStep (s : Store) (cd : String × String × String) : Store :=
  if (findCharacter s cd.1).isSome then s
  else insertCharacter s cd.1 cd.2.1 cd.2.2

/-- Embedding of `add_predefined_characters` (Main2.py lines 83-102).  The
loop stages the missing predefined characters and a single commit makes
them durable; `commitOk = false` models the commit raising, in which case
the session is rolled back and the store is unchanged. -/
def add_predefined_characters (s : Store) (commitOk : Bool) : Store :=
  if commitOk then predefined_characters.foldl seedStep s else s

/-- Embedding of `add_character` (Main2.py lines 104-117).  Returns the
response text and the resulting store.  `failure = some e` models the
insert/commit raising with message `e`: the session is rolled back and an
error text is returned. -/
def add_character (s : Store) (name description prompt_template : String)
    (failure : Option String) : String × Store :=
  if (findCharacter s name).isSome then
    ("Character " ++ sq ++ name ++ sq ++ " already exists!", s)
  else
    match failure with
    | some e => ("An error occurred while adding the character: " ++ e, s)
    | none =>
        ("Character " ++ sq ++ name ++ sq ++ " added successfully!\nDescription: " ++ description,
         insertCharacter s name description prompt_template)

/-- Embedding of `get_existing_characters` (Main2.py lines 119-126).
`queryFailure = some e` models `Character.query.all()` raising with
message `e`; the handler logs it and returns a one-element placeholder
list instead of propagating. -/
def get_existing_characters (s : Store) (queryFailure : Option String) :
    List (String × String) :=
  match queryFailure with
  | some e => [("Error retrieving characters", e)]
  | none => s.characters.map (fun c => (c.name, c.description))

/-- Lowercase hex digit for a value below 16. -/
def hexDigitChar (n : Nat) : Char :=
  if n < 10 then Char.ofNat (48 + n) else Char.ofNat (87 + n)

/-- Big-endian list of `l` lowercase hex digits of `n` (zero padded). -/
def hexChars : Nat → Nat → List Char
  | _, 0 => []
  | n, l + 1 => hexChars (n / 16) l ++ [hexDigitChar (n % 16)]

/-- String of `l` lowercase hex digits of `n` (zero padded). -/
def hexPad (n l : Nat) : String := ⟨hexChars n l⟩

/-- Embedding of `str(uuid.uuid4())` (Main2.py line 138): the canonical
8-4-4-4-12 hyphenated lowercase hex rendering of a random 128-bit value
`r`.  The fixed version and variant bits of the real uuid4 are not
tracked; no claim depends on them, only on the shape of the string. -/
def uuid4 (r : Nat) : String :=
  let v := r % 2 ^ 128
  hexPad (v / 2 ^ 96) 8 ++ "-" ++ hexPad (v / 2 ^ 80 % 2 ^ 16) 4 ++ "-" ++
    hexPad (v / 2 ^ 64 % 2 ^ 16) 4 ++ "-" ++ hexPad (v / 2 ^ 48 % 2 ^ 16) 4 ++ "-" ++
    hexPad (v % 2 ^ 48) 12

/-- Embedding of line 139: `Conversation.query.filter_by(user_id=user_id)
.order_by(Conversation.timestamp).all()` — every conversation row of the
user, ordered by timestamp ascending. -/
def previous_conversations (s : Store) (user_id : Int) : List Conversation :=
  List.insertionSort (fun a b => a.timestamp ≤ b.timestamp)
    (s.conversations.filter (fun c => c.user_id == user_id))

/-- Rendering of one prior turn inside the context prompt (line 140). -/
def turnPair (c : Conversation) : String :=
  "User: " ++ c.user_input ++ "\nBot: " ++ c.bot_response

/-- Embedding of line 140: the prior turns rendered and joined by single
spaces. -/
def context_prompt (s : Store) (user_id : Int) : String :=
  " ".intercalate ((previous_conversations s user_id).map turnPair)

/-- Embedding of line 142: the full prompt handed to the generator. -/
def full_prompt (prompt_template ctx user_input : String) : String :=
  prompt_template ++ "\n" ++ ctx ++ "\nUser: " ++ user_input ++ "\nBot:"

/-- Parsed JSON body of a generator response, as far as the engine
inspects it: either the `candidates` key is absent, or it holds a list of
candidates, each collapsed to its extracted `content.parts[0].text`.  (A
body whose nested keys are missing so that the extraction itself raises
is modelled through `JsonParse.raises`, since that raise is caught by the
same handler with the same observable outcome.) -/
inductive GenBody where
  | withoutCandidates
  | withCandidates (texts : List String)
  deriving Repr, DecidableEq

/-- Outcome of `response.json()`: a parsed body, or a raise with message
`e` (non-JSON body). -/
inductive JsonParse where
  | ok (body : GenBody)
  | raises (e : String)
  deriving Repr, DecidableEq

/-- Outcome of `requests.post` to the generator (line 146): the call
raised (network error), or returned a response with a status code, a JSON
parse outcome and a raw body text. -/
inductive HttpResult where
  | raised (e : String)
  | returned (status : Nat) (body : JsonParse) (bodyText : String)
  deriving Repr, DecidableEq

/-- Observable outcome of `chat_with_character`: the returned pair
(response text, chat id) plus the resulting store.  `sent_prompt` records
the prompt handed to `requests.post`, `none` when the call never
happened. -/
structure ChatResult where
  message : String
  chat_id : Option String
  store : Store
  sent_prompt : Option String
  deriving Repr, DecidableEq

/-- Embedding of `chat_with_character` (Main2.py lines 128-164).  The
external world is given by `apiKey` (the `GEMINI_API_KEY` environment
value), `rand` (the random value behind `uuid.uuid4()`), `now` (the
write-time timestamp) and `http` (what the generator call produced).
Note that the missing-credential raise of line 131 happens before the
chat id is minted, so the caught handler of line 164 returns the chat id
parameter unchanged there. -/
def chat_with_character (apiKey : Option String) (s : Store)
    (character_name user_input : String) (user_id : Int)
    (chat_id : Option String) (rand now : Nat) (http : HttpResult) : ChatResult :=
  if !truthyOptStr apiKey then
    ⟨"An unexpected error occurred: GEMINI_API_KEY is not set in the environment.",
     chat_id, s, none⟩
  else
    match findCharacter s character_name with
    | none => ⟨"Character not found.", none, s, none⟩
    | some character =>
      let chat_id := if truthyOptStr chat_id then chat_id else some (uuid4 rand)
      let prompt := full_prompt character.prompt_template (context_prompt s user_id) user_input
      match http with
      | .raised e => ⟨"An unexpected error occurred: " ++ e, chat_id, s, some prompt⟩
      | .returned status body bodyText =>
        if status == 200 then
          match body with
          | .raises e => ⟨"An unexpected error occurred: " ++ e, chat_id, s, some prompt⟩
          | .ok .withoutCandidates =>
              ⟨"An error occurred while generating content: Unexpected response format.",
               chat_id, s, some prompt⟩
          | .ok (.withCandidates []) =>
              ⟨"An error occurred while generating content: Unexpected response format.",
               chat_id, s, some prompt⟩
          | .ok (.withCandidates (bot_response :: _)) =>
              ⟨bot_response, chat_id,
               { s with
                 conversations := s.conversations ++
                   [⟨s.next_conversation_id, character.id, user_input, bot_response,
                     now, chat_id, user_id⟩],
                 next_conversation_id := s.next_conversation_id + 1 },
               some prompt⟩
        else
          -- line 160 logs f-string containing response.json(): a raising
          -- json() in the non-200 branch is caught by the except of line 162
          match body with
          | .raises e => ⟨"An unexpected error occurred: " ++ e, chat_id, s, some prompt⟩
          | .ok _ =>
              ⟨"An error occurred while generating content: " ++ toString status ++ " - " ++ bodyText,
               chat_id, s, some prompt⟩

/-- The chat id in force after the minting step of lines 137-138: the
passed id when truthy, a freshly minted uuid otherwise. -/
def effectiveChatId (chat_id : Option String) (rand : Nat) : Option String :=
  if truthyOptStr chat_id then chat_id else some (uuid4 rand)

/-- Whether a generator outcome lets the engine extract a first candidate
text — the persisting branch of lines 148-156. -/
def genSuccess : HttpResult → Bool
  | .returned status (.ok (.withCandidates (_ :: _))) _ => status == 200
  | _ => false

/-- First candidate text of a successful generator outcome. -/
def genText : HttpResult → String
  | .returned _ (.ok (.withCandidates (t :: _))) _ => t
  | _ => ""

/-- The user-facing error text each failing generator outcome produces
(lines 157-164). -/
def genFailureMessage : HttpResult → String
  | .raised e => "An unexpected error occurred: " ++ e
  | .returned status body bodyText =>
    match body with
    | .raises e => "An unexpected error occurred: " ++ e
    | .ok _ =>
      if status == 200 then
        "An error occurred while generating content: Unexpected response format."
      else
        "An error occurred while generating content: " ++ toString status ++ " - " ++ bodyText

/-- Modelled from the claim wording of C3, for comparison with the
engine: the plain concatenation, in order, of the prompt template, the
space-joined prior-turn pairs and the current-turn rendering, with
nothing in between. -/
def claimed_full_prompt (prompt_template ctx user_input : String) : String :=
  prompt_template ++ ctx ++ "User: " ++ user_input ++ "\nBot:"

instance : IsTotal Conversation (fun a b => a.timestamp ≤ b.timestamp) :=
  ⟨fun a b => Nat.le_total a.timestamp b.timestamp⟩

instance : IsTrans Conversation (fun a b => a.timestamp ≤ b.timestamp) :=
  ⟨fun _ _ _ => Nat.le_trans⟩

/-- Outcome of the external speech-recognition call inside
`speech_to_text` (Main2.py lines 166-177). -/
inductive SpeechResult where
  | recognized (text : String)
  | unknownValue
  | requestError (e : String)
  deriving Repr, DecidableEq

/-- Embedding of `speech_to_text`: the recognized text, or `None` both
when the audio was not understood and when the service call failed. -/
def speech_to_text (outcome : SpeechResult) : Option String :=
  match outcome with
  | .recognized t => some t
  | .unknownValue => none
  | .requestError _ => none

/-- Embedding of `extract_audio_from_video` (lines 179-187): the fixed
temporary file path on success, `None` when extraction raised. -/
def extract_audio_from_video (extractionOk : Bool) : Option String :=
  if extractionOk then some "temp_audio.wav" else none

/-- Python `x or ""` on an optional string. -/
def orEmpty : Option String → String
  | none => ""
  | some s => s

/-- Embedding of the Python `str.strip()` call semantics: drop leading
and trailing whitespace. -/
def pyStrip (sIn : String) : String :=
  ⟨((sIn.data.dropWhile Char.isWhitespace).reverse.dropWhile Char.isWhitespace).reverse⟩

/-- One entry of the displayed chat transcript. -/
structure Message where
  role : String
  content : String
  deriving Repr, DecidableEq

/-- Observable outcome of `handle_chat`: its three returned values
(displayed messages, session chat id, third widget value), the resulting
store, and two ghost flags recording whether `speech_to_text` and
`chat_with_character` were invoked on the taken path. -/
structure HandleChatResult where
  chat_messages : List Message
  current_chat_id : Option String
  status : Option String
  store : Store
  called_speech : Bool
  called_engine : Bool
  deriving Repr, DecidableEq

/-- Tail of `handle_chat` from line 275 on: the emptiness check on the
final input and the call into the conversation engine.  `cs` carries
whether speech recognition was invoked earlier on this path. -/
def handle_chat_send (apiKey : Option String) (s : Store)
    (character_name final_input : String) (user_id : Int)
    (chat_messages : List Message) (current_chat_id : Option String)
    (rand now : Nat) (http : HttpResult) (cs : Bool) : HandleChatResult :=
  if (pyStrip final_input).isEmpty then
    ⟨chat_messages, current_chat_id, some "Please provide a message, audio, or video!",
     s, cs, false⟩
  else
    let r := chat_with_character apiKey s character_name final_input user_id
      current_chat_id rand now http
    ⟨chat_messages ++ [⟨"user", final_input⟩, ⟨"assistant", r.message⟩],
     r.chat_id, r.chat_id, r.store, cs, true⟩

/-- Video branch of `handle_chat` (lines 264-273) followed by the send
tail. -/
def handle_chat_video (apiKey : Option String) (s : Store)
    (character_name final_input : String) (video_file : Option String)
    (user_id : Int) (chat_messages : List Message) (current_chat_id : Option String)
    (videoSpeech : SpeechResult) (videoExtractOk : Bool)
    (rand now : Nat) (http : HttpResult) (cs : Bool) : HandleChatResult :=
  if truthyOptStr video_file then
    match extract_audio_from_video videoExtractOk with
    | some _path =>
      let video_text := speech_to_text videoSpeech
      let final_input :=
        if truthyOptStr video_text then final_input ++ " " ++ orEmpty video_text
        else final_input
      let chat_messages := chat_messages ++ [⟨"user", "Video uploaded"⟩]
      handle_chat_send apiKey s character_name final_input user_id chat_messages
        current_chat_id rand now http true
    | none =>
      ⟨chat_messages ++ [⟨"assistant", "Failed to extract audio from video."⟩],
       current_chat_id, none, s, cs, false⟩
  else
    handle_chat_send apiKey s character_name final_input user_id chat_messages
      current_chat_id rand now http cs

/-- Embedding of the `handle_chat` UI handler (Main2.py lines 249-281).
`audioSpeech` and `videoSpeech` give the outcomes the speech service
would produce for the audio file and the extracted video soundtrack;
`videoExtractOk` whether the soundtrack extraction succeeds. -/
def handle_chat (apiKey : Option String) (s : Store)
    (character_name : String) (user_input audio_file video_file : Option String)
    (user_id : Option Int) (chat_messages : List Message) (current_chat_id : Option String)
    (audioSpeech videoSpeech : SpeechResult) (videoExtractOk : Bool)
    (rand now : Nat) (http : HttpResult) : HandleChatResult :=
  if !truthyOptInt user_id then
    ⟨chat_messages, current_chat_id, some "Please sign in with a numeric User ID first!",
     s, false, false⟩
  else if character_name.isEmpty then
    ⟨chat_messages, current_chat_id, some "Please select a character!", s, false, false⟩
  else
    let final_input := orEmpty user_input
    if truthyOptStr audio_file then
      let audio_text := speech_to_text audioSpeech
      if truthyOptStr audio_text then
        handle_chat_video apiKey s character_name (final_input ++ " " ++ orEmpty audio_text)
          video_file (user_id.getD 0) chat_messages current_chat_id videoSpeech
          videoExtractOk rand now http true
      else
        ⟨chat_messages ++ [⟨"assistant", "Could not understand audio."⟩],
         current_chat_id, none, s, true, false⟩
    else
      handle_chat_video apiKey s character_name final_input video_file (user_id.getD 0)
        chat_messages current_chat_id videoSpeech videoExtractOk rand now http false

/-- Value of one decimal digit character, `none` for a non-digit. -/
def digitVal (c : Char) : Option Nat :=
  if c.isDigit then some (c.toNat - 48) else none

/-- Decimal value of a nonempty all-digit character list, `none`
otherwise. -/
def decNat? : List Char → Option Nat
  | [] => none
  | cs => cs.foldl
      (fun acc c => acc.bind (fun n => (digitVal c).map (fun d => 10 * n + d)))
      (some 0)

/-- Embedding of the Python `int(...)` conversion applied by `sign_in`:
surrounding whitespace ignored, an optional sign followed by decimal
digits, `none` (a `ValueError`) when the text is not an integer
literal. -/
def py_int (sIn : String) : Option Int :=
  match (pyStrip sIn).data with
  | [] => none
  | c :: cs =>
    if c == '-' then (decNat? cs).map (fun n => -(n : Int))
    else if c == '+' then (decNat? cs).map (fun n => (n : Int))
    else (decNat? (c :: cs)).map (fun n => (n : Int))

/-- Embedding of the `sign_in` UI handler (Main2.py lines 214-219). -/
def sign_in (user_id_input : String) : String × Option Int :=
  match py_int user_id_input with
  | some n => ("Welcome, User " ++ toString n ++ "!", some n)
  | none => ("Please enter a valid numeric User ID (e.g., 123)!", none)

/-- Number of character rows bearing a given name. -/
def countNamed (s : Store) (name : String) : Nat :=
  (s.characters.filter (fun c => c.name == name)).length

/-- Concrete store with one character row, used to exercise theorems on
explicit data. -/
def storeA : Store :=
  ⟨[⟨1, "Chuck the Clown", "A funny clown who tells jokes and entertains.", "T"⟩], [], 2, 1⟩

/-- Concrete conversation rows and a store holding them, used to exercise
the context-assembly theorems on explicit data. -/
def convA : Conversation := ⟨1, 1, "hi", "ho", 10, some "c1", 7⟩

/-- Second concrete conversation row: earlier timestamp, same user. -/
def convB : Conversation := ⟨2, 1, "ahoy", "arr", 4, some "c2", 7⟩

/-- Third concrete conversation row: a different user. -/
def convC : Conversation := ⟨3, 1, "hey", "yo", 6, some "c3", 8⟩

/-- Concrete store with one character and three conversation rows. -/
def storeB : Store :=
  ⟨[⟨1, "Chuck the Clown", "A funny clown who tells jokes and entertains.", "T"⟩],
   [convA, convB, convC], 2, 4⟩

/-! ## Helper lemmas about the store operations -/

/-- Inserting a row with a different name does not change a name lookup. -/
theorem findCharacter_insert_of_ne (s : Store) (n d t n' : String) (h : n ≠ n') :
    findCharacter (insertCharacter s n d t) n' = findCharacter s n' := by
  unfold findCharacter insertCharacter
  simp [List.find?_append, Option.or_none, h]

/-- A name lookup that already succeeds is unchanged by any insertion. -/
theorem findCharacter_insert_of_isSome (s : Store) (n d t n' : String)
    (h : (findCharacter s n').isSome = true) :
    findCharacter (insertCharacter s n d t) n' = findCharacter s n' := by
  unfold findCharacter insertCharacter
  unfold findCharacter at h
  obtain ⟨c, hc⟩ := Option.isSome_iff_exists.mp h
  simp [List.find?_append, hc]

/-- After inserting a row with name `n`, looking up `n` succeeds. -/
theorem findCharacter_insert_self (s : Store) (n d t : String) :
    (findCharacter (insertCharacter s n d t) n).isSome = true := by
  unfold findCharacter insertCharacter
  simp [List.find?_append]

/-- Insertion changes the per-name row count by one exactly at the
inserted name. -/
theorem countNamed_insert (s : Store) (n d t n' : String) :
    countNamed (insertCharacter s n d t) n' =
      countNamed s n' + (if n == n' then 1 else 0) := by
  unfold countNamed insertCharacter
  by_cases h : n = n' <;> simp [List.filter_append, h]

/-- A seeding step makes the name of its own seed present. -/
theorem findCharacter_seedStep_self (s : Store) (cd : String × String × String) :
    (findCharacter (seedStep s cd) cd.1).isSome = true := by
  unfold seedStep
  cases h : (findCharacter s cd.1).isSome
  · simp [h, findCharacter_insert_self]
  · simp [h]

/-- A seeding step keeps every already-present name present. -/
theorem findCharacter_seedStep_mono (s : Store) (cd : String × String × String)
    (n : String) (h : (findCharacter s n).isSome = true) :
    (findCharacter (seedStep s cd) n).isSome = true := by
  unfold seedStep
  cases hc : (findCharacter s cd.1).isSome
  · simp only [Bool.false_eq_true, if_false]
    rw [findCharacter_insert_of_isSome _ _ _ _ _ h]
    exact h
  · simpa using h

/-- A seeding step whose name is already present does nothing. -/
theorem seedStep_of_present (s : Store) (cd : String × String × String)
    (h : (findCharacter s cd.1).isSome = true) : seedStep s cd = s := by
  unfold seedStep
  simp [h]

/-- A seeding step with a different seed name does not change a name
lookup. -/
theorem findCharacter_seedStep_of_ne (s : Store) (cd : String × String × String)
    (n : String) (h : cd.1 ≠ n) :
    findCharacter (seedStep s cd) n = findCharacter s n := by
  unfold seedStep
  cases hc : (findCharacter s cd.1).isSome
  · simp only [Bool.false_eq_true, if_false]
    exact findCharacter_insert_of_ne _ _ _ _ _ h
  · simp

/-- A seeding step with a different seed name does not change the row
count of a name. -/
theorem countNamed_seedStep_of_ne (s : Store) (cd : String × String × String)
    (n : String) (h : cd.1 ≠ n) : countNamed (seedStep s cd) n = countNamed s n := by
  unfold seedStep
  cases hc : (findCharacter s cd.1).isSome
  · simp only [Bool.false_eq_true, if_false]
    rw [countNamed_insert]
    simp [h]
  · simp

/-- A seeding step adds one row of its own name exactly when that name is
absent. -/
theorem countNamed_seedStep_self (s : Store) (cd : String × String × String) :
    countNamed (seedStep s cd) cd.1 =
      if (findCharacter s cd.1).isSome then countNamed s cd.1 else countNamed s cd.1 + 1 := by
  unfold seedStep
  cases hc : (findCharacter s cd.1).isSome
  · simp only [Bool.false_eq_true, if_false]
    rw [countNamed_insert]
    simp
  · simp

/-- After seeding, each of the three predefined names is present. -/
theorem findCharacter_seed_isSome (s : Store) (cd : String × String × String)
    (h : cd ∈ predefined_characters) :
    (findCharacter (add_predefined_characters s true) cd.1).isSome = true := by
  simp only [predefined_characters, List.mem_cons, List.not_mem_nil, or_false] at h
  unfold add_predefined_characters predefined_characters
  simp only [if_true, List.foldl]
  rcases h with h | h | h <;> subst h
  · exact findCharacter_seedStep_mono _ _ _
      (findCharacter_seedStep_mono _ _ _ (findCharacter_seedStep_self _ _))
  · exact findCharacter_seedStep_mono _ _ _ (findCharacter_seedStep_self _ _)
  · exact findCharacter_seedStep_self _ _

/-- Length of the hex digit list. -/
theorem hexChars_length (n l : Nat) : (hexChars n l).length = l := by
  induction l generalizing n with
  | zero => rfl
  | succ l ih => simp [hexChars, ih]

/-- A minted uuid string has the canonical 36-character length. -/
theorem uuid4_length (r : Nat) : (uuid4 r).length = 36 := by
  simp [uuid4, hexPad, String.length_append, String.length, hexChars_length]

/-- A minted uuid string is never empty. -/
theorem uuid4_ne_empty (r : Nat) : uuid4 r ≠ "" := by
  intro h
  have h36 := uuid4_length r
  rw [h] at h36
  exact absurd h36 (by decide)

/-- A minted uuid string is truthy. -/
theorem truthy_uuid4 (r : Nat) : truthyOptStr (some (uuid4 r)) = true := by
  have h := uuid4_ne_empty r
  simp only [truthyOptStr, Bool.not_eq_true']
  rw [Bool.eq_false_iff]
  intro he
  exact h ((String.isEmpty_iff _).mp he)

/-- Behavior of the engine once the credential check passes and the
character name resolves: the returned message, chat id, store and sent
prompt, as one function of the generator outcome. -/
theorem chat_of_found (apiKey : Option String) (s : Store)
    (character_name user_input : String) (user_id : Int) (chat_id : Option String)
    (rand now : Nat) (http : HttpResult) (ch : Character)
    (hkey : truthyOptStr apiKey = true) (hch : findCharacter s character_name = some ch) :
    chat_with_character apiKey s character_name user_input user_id chat_id rand now http =
      if genSuccess http then
        ⟨genText http, effectiveChatId chat_id rand,
         { s with
           conversations := s.conversations ++
             [⟨s.next_conversation_id, ch.id, user_input, genText http, now,
               effectiveChatId chat_id rand, user_id⟩],
           next_conversation_id := s.next_conversation_id + 1 },
         some (full_prompt ch.prompt_template (context_prompt s user_id) user_input)⟩
      else
        ⟨genFailureMessage http, effectiveChatId chat_id rand, s,
         some (full_prompt ch.prompt_template (context_prompt s user_id) user_input)⟩ := by
  rcases http with e | ⟨status, body, bodyText⟩
  · simp [chat_with_character, hkey, hch, genSuccess, genFailureMessage, effectiveChatId]
  · rcases body with ⟨_ | ⟨_ | ⟨t, rest⟩⟩⟩ | e <;>
      by_cases hs : status = 200 <;>
        simp [chat_with_character, hkey, hch, genSuccess, genText, genFailureMessage,
          effectiveChatId, hs]

/-! ## The claims -/

/-- C5: `add_predefined_characters` (seedDefaults) is idempotent: from any
starting store it inserts a default persona exactly when no character of
that name exists (the per-name row count rises by one exactly at the
absent names), a second run changes nothing, and running it twice from
the empty store yields exactly three default characters, not six. -/
theorem add_predefined_characters_idempotent (s : Store) :
    add_predefined_characters (add_predefined_characters s true) true
      = add_predefined_characters s true ∧
    (∀ cd ∈ predefined_characters,
      countNamed (add_predefined_characters s true) cd.1 =
        if (findCharacter s cd.1).isSome then countNamed s cd.1
        else countNamed s cd.1 + 1) ∧
    (add_predefined_characters (add_predefined_characters emptyStore true) true).characters.length
      = 3 := by
  have hpresent : ∀ cd ∈ predefined_characters,
      (findCharacter (add_predefined_characters s true) cd.1).isSome = true :=
    fun cd h => findCharacter_seed_isSome s cd h
  refine ⟨?_, ?_, by decide⟩
  · conv_lhs => rw [add_predefined_characters]
    simp only [if_true, predefined_characters, List.foldl]
    rw [seedStep_of_present _ _ (hpresent _ (by decide)),
        seedStep_of_present _ _ (hpresent _ (by decide)),
        seedStep_of_present _ _ (hpresent _ (by decide))]
  · intro cd h
    simp only [predefined_characters, List.mem_cons, List.not_mem_nil, or_false] at h
    unfold add_predefined_characters predefined_characters
    simp only [if_true, List.foldl]
    rcases h with h | h | h <;> subst h
    · rw [countNamed_seedStep_of_ne _ _ _ (by decide),
          countNamed_seedStep_of_ne _ _ _ (by decide),
          countNamed_seedStep_self]
    · rw [countNamed_seedStep_of_ne _ _ _ (by decide),
          countNamed_seedStep_self,
          findCharacter_seedStep_of_ne _ _ _ (by decide),
          countNamed_seedStep_of_ne _ _ _ (by decide)]
    · rw [countNamed_seedStep_self,
          findCharacter_seedStep_of_ne _ _ _ (by decide),
          findCharacter_seedStep_of_ne _ _ _ (by decide),
          countNamed_seedStep_of_ne _ _ _ (by decide),
          countNamed_seedStep_of_ne _ _ _ (by decide)]

/-- Witness for C5 at a concrete store: seeding the already-seeded store
with one prior character changes nothing on the second run. -/
theorem add_predefined_characters_idempotent_witness :
    add_predefined_characters (add_predefined_characters storeA true) true
      = add_predefined_characters storeA true :=
  (add_predefined_characters_idempotent storeA).1

/-- C6: `add_character` with an already-existing name leaves the store
unchanged and reports the duplicate-name failure text; with a fresh name
and a successful commit it appends exactly one character row and returns
the success text carrying the stored description. -/
theorem add_character_duplicate_and_fresh (s : Store)
    (name description prompt_template : String) (failure : Option String) :
    ((findCharacter s name).isSome = true →
      (add_character s name description prompt_template failure).2 = s ∧
      (add_character s name description prompt_template failure).1 =
        "Character " ++ sq ++ name ++ sq ++ " already exists!") ∧
    ((findCharacter s name).isSome = false → failure = none →
      (add_character s name description prompt_template failure).2.characters =
        s.characters ++ [⟨s.next_character_id, name, description, prompt_template⟩] ∧
      (add_character s name description prompt_template failure).2.conversations =
        s.conversations ∧
      (add_character s name description prompt_template failure).1 =
        "Character " ++ sq ++ name ++ sq ++ " added successfully!\nDescription: " ++ description) := by
  constructor
  · intro h
    simp [add_character, h]
  · intro h hf
    subst hf
    simp [add_character, h, insertCharacter]

/-- Witness for C6 at concrete inputs: a duplicate insert of the seeded
clown leaves the one-character store unchanged. -/
theorem add_character_duplicate_and_fresh_witness :
    (findCharacter storeA "Chuck the Clown").isSome = true ∧
    (add_character storeA "Chuck the Clown" "again" "t" none).2 = storeA :=
  ⟨by decide,
   ((add_character_duplicate_and_fresh storeA "Chuck the Clown" "again" "t" none).1
      (by decide)).1⟩

/-- C7 counterexample: when the character query fails,
`get_existing_characters` does not return an empty sequence — at this
concrete failing input the result is a one-element placeholder list. -/
theorem get_existing_characters_failure_nonempty :
    get_existing_characters emptyStore (some "connection refused") ≠ [] := by
  decide

/-- C7 (amended): when the underlying character query fails with message
`e`, `get_existing_characters` returns the one-element placeholder
sequence `[("Error retrieving characters", e)]`; the failure is logged
and not propagated as a typed error. -/
theorem get_existing_characters_failure_placeholder (s : Store) (e : String) :
    get_existing_characters s (some e) = [("Error retrieving characters", e)] := rfl

/-- C1: the conversation context the engine assembles for a user is
complete and ordered: `previous_conversations`, the list over which the
context prompt is built, contains every persisted turn whose user id
matches — whatever character or chat session produced it — in ascending
timestamp order; and every chat call that reaches the generator sends a
prompt built from exactly that list. -/
theorem chat_context_complete_and_sorted (s : Store) (user_id : Int) :
    (∀ c ∈ s.conversations, c.user_id = user_id → c ∈ previous_conversations s user_id) ∧
    List.Sorted (fun a b => a.timestamp ≤ b.timestamp) (previous_conversations s user_id) ∧
    (∀ apiKey character_name user_input chat_id rand now http ch,
      truthyOptStr apiKey = true → findCharacter s character_name = some ch →
      (chat_with_character apiKey s character_name user_input user_id chat_id rand now
          http).sent_prompt =
        some (full_prompt ch.prompt_template
          (" ".intercalate ((previous_conversations s user_id).map turnPair)) user_input)) := by
  refine ⟨?_, ?_, ?_⟩
  · intro c hc hu
    unfold previous_conversations
    exact (List.perm_insertionSort _ _).mem_iff.mpr (List.mem_filter.mpr ⟨hc, by simp [hu]⟩)
  · exact List.sorted_insertionSort _ _
  · intro apiKey character_name user_input chat_id rand now http ch hkey hch
    rw [chat_of_found _ _ _ _ _ _ _ _ _ ch hkey hch]
    by_cases hg : genSuccess http = true <;> simp [hg, context_prompt]

/-- Witness for C1 at a concrete store: an explicitly persisted turn of
user 7 lands in the assembled context. -/
theorem chat_context_complete_and_sorted_witness :
    convB ∈ storeB.conversations ∧ convB.user_id = 7 ∧
    convB ∈ previous_conversations storeB 7 :=
  ⟨by decide, by decide,
   (chat_context_complete_and_sorted storeB 7).1 convB (by decide) (by decide)⟩

/-- C2: a failing generator call (absent credential, network raise,
non-200 status, malformed or candidate-less body) persists no
conversation row and returns a user-facing error text together with the
chat id in force (the raw parameter when the credential is absent, since
the raise of line 131 precedes the minting; the passed-or-minted id
otherwise); a successful call appends exactly one new conversation
row. -/
theorem chat_persists_exactly_on_success (apiKey : Option String) (s : Store)
    (character_name user_input : String) (user_id : Int) (chat_id : Option String)
    (rand now : Nat) (http : HttpResult) :
    (truthyOptStr apiKey = false →
      chat_with_character apiKey s character_name user_input user_id chat_id rand now http =
        ⟨"An unexpected error occurred: GEMINI_API_KEY is not set in the environment.",
         chat_id, s, none⟩) ∧
    (∀ ch, truthyOptStr apiKey = true → findCharacter s character_name = some ch →
      (genSuccess http = false →
        (chat_with_character apiKey s character_name user_input user_id chat_id rand now
            http).store = s ∧
        (chat_with_character apiKey s character_name user_input user_id chat_id rand now
            http).chat_id = effectiveChatId chat_id rand ∧
        (chat_with_character apiKey s character_name user_input user_id chat_id rand now
            http).message = genFailureMessage http) ∧
      (genSuccess http = true →
        (chat_with_character apiKey s character_name user_input user_id chat_id rand now
            http).store.conversations =
          s.conversations ++
            [⟨s.next_conversation_id, ch.id, user_input, genText http, now,
              effectiveChatId chat_id rand, user_id⟩] ∧
        (chat_with_character apiKey s character_name user_input user_id chat_id rand now
            http).chat_id = effectiveChatId chat_id rand ∧
        (chat_with_character apiKey s character_name user_input user_id chat_id rand now
            http).message = genText http)) := by
  constructor
  · intro h
    simp [chat_with_character, h]
  · intro ch hkey hch
    rw [chat_of_found _ _ _ _ _ _ _ _ _ ch hkey hch]
    constructor
    · intro hg
      simp [hg]
    · intro hg
      simp [hg]

/-- Witness for C2 at concrete inputs: a 500 response persists nothing. -/
theorem chat_persists_exactly_on_success_witness :
    (chat_with_character (some "k") storeA "Chuck the Clown" "hi" 7 (some "c0") 0 5
        (.returned 500 (.ok .withoutCandidates) "err")).store = storeA :=
  (((chat_persists_exactly_on_success (some "k") storeA "Chuck the Clown" "hi" 7 (some "c0")
        0 5 (.returned 500 (.ok .withoutCandidates) "err")).2
      ⟨1, "Chuck the Clown", "A funny clown who tells jokes and entertains.", "T"⟩
      (by decide) (by decide)).1 (by decide)).1

/-- C3 counterexample: at a concrete call the prompt the engine hands to
the generator is not the plain concatenation the claim describes; the
engine separates the three segments with newline characters. -/
theorem chat_prompt_not_plain_concatenation :
    (chat_with_character (some "k") storeA "Chuck the Clown" "hi" 7 none 0 5
        (.returned 200 (.ok (.withCandidates ["joke"])) "raw")).sent_prompt ≠
      some (claimed_full_prompt "T" (context_prompt storeA 7) "hi") := by
  decide

/-- C3 (amended): the prompt sent to the generator is the concatenation,
in order, of: the prompt template of the character, a newline, the pairs
"User: {input}\nBot: {response}" of all prior turns of the user
(`turnPair`) joined by single spaces, a newline, and the current turn
rendered as "User: {userInput}\nBot:". -/
theorem chat_prompt_concatenation (apiKey : Option String) (s : Store)
    (character_name user_input : String) (user_id : Int) (chat_id : Option String)
    (rand now : Nat) (http : HttpResult) (ch : Character)
    (hkey : truthyOptStr apiKey = true) (hch : findCharacter s character_name = some ch) :
    (chat_with_character apiKey s character_name user_input user_id chat_id rand now
        http).sent_prompt =
      some (ch.prompt_template ++ "\n" ++
        " ".intercalate ((previous_conversations s user_id).map turnPair) ++
        "\nUser: " ++ user_input ++ "\nBot:") := by
  rw [chat_of_found _ _ _ _ _ _ _ _ _ ch hkey hch]
  by_cases hg : genSuccess http = true <;> simp [hg, full_prompt, context_prompt]

/-- Witness for C3 (amended) at concrete inputs: the exact prompt sent
for a one-turn history. -/
theorem chat_prompt_concatenation_witness :
    (chat_with_character (some "k") storeB "Chuck the Clown" "more" 7 (some "c1") 0 20
        (.raised "down")).sent_prompt =
      some ("T" ++ "\n" ++
        " ".intercalate ((previous_conversations storeB 7).map turnPair) ++
        "\nUser: " ++ "more" ++ "\nBot:") :=
  chat_prompt_concatenation (some "k") storeB "Chuck the Clown" "more" 7 (some "c1") 0 20
    (.raised "down")
    ⟨1, "Chuck the Clown", "A funny clown who tells jokes and entertains.", "T"⟩
    (by decide) (by decide)

/-- C4: with a known character and an absent chat id the engine mints and
returns a fresh non-empty session identifier; a follow-up call passing
that identifier back (on the store the first call produced) gets the
same identifier again rather than a replacement. -/
theorem chat_mints_and_reuses_chat_id (apiKey : Option String) (s : Store)
    (character_name user_input : String) (user_id : Int) (rand now : Nat)
    (http : HttpResult) (ch : Character)
    (hkey : truthyOptStr apiKey = true) (hch : findCharacter s character_name = some ch) :
    (chat_with_character apiKey s character_name user_input user_id none rand now http).chat_id
      = some (uuid4 rand) ∧
    uuid4 rand ≠ "" ∧
    (∀ user_input2 user_id2 rand2 now2 http2,
      (chat_with_character apiKey
          (chat_with_character apiKey s character_name user_input user_id none rand now
            http).store
          character_name user_input2 user_id2 (some (uuid4 rand)) rand2 now2 http2).chat_id
        = some (uuid4 rand)) := by
  have hstore : (chat_with_character apiKey s character_name user_input user_id none rand now
      http).store.characters = s.characters := by
    rw [chat_of_found _ _ _ _ _ _ _ _ _ ch hkey hch]
    by_cases hg : genSuccess http = true <;> simp [hg]
  refine ⟨?_, uuid4_ne_empty rand, ?_⟩
  · rw [chat_of_found _ _ _ _ _ _ _ _ _ ch hkey hch]
    by_cases hg : genSuccess http = true <;> simp [hg, effectiveChatId, truthyOptStr]
  · intro user_input2 user_id2 rand2 now2 http2
    have hch2 : findCharacter (chat_with_character apiKey s character_name user_input user_id
        none rand now http).store character_name = some ch := by
      unfold findCharacter
      rw [hstore]
      exact hch
    rw [chat_of_found _ _ _ _ _ _ _ _ _ ch hkey hch2]
    by_cases hg : genSuccess http2 = true <;>
      simp [hg, effectiveChatId, truthy_uuid4]

/-- Witness for C4 at concrete inputs: the minted id is returned. -/
theorem chat_mints_and_reuses_chat_id_witness :
    (chat_with_character (some "k") storeA "Chuck the Clown" "hi" 7 none 3 5
        (.raised "down")).chat_id = some (uuid4 3) :=
  (chat_mints_and_reuses_chat_id (some "k") storeA "Chuck the Clown" "hi" 7 3 5
      (.raised "down")
      ⟨1, "Chuck the Clown", "A funny clown who tells jokes and entertains.", "T"⟩
      (by decide) (by decide)).1

/-- C9: with the credential present, a chat call whose character name
resolves to no character returns the literal text "Character not found."
paired with `none` as the session id — discarding any chat id the caller
passed — while the later failure paths (any failing generator outcome
with a known character) return the passed or freshly minted chat id. -/
theorem chat_unknown_character_discards_chat_id (apiKey : Option String) (s : Store)
    (character_name user_input : String) (user_id : Int) (chat_id : Option String)
    (rand now : Nat) (http : HttpResult)
    (hkey : truthyOptStr apiKey = true) (hch : findCharacter s character_name = none) :
    chat_with_character apiKey s character_name user_input user_id chat_id rand now http =
      ⟨"Character not found.", none, s, none⟩ ∧
    (∀ s2 name2 input2 uid2 cid2 rand2 now2 http2 ch2,
      findCharacter s2 name2 = some ch2 → genSuccess http2 = false →
      (chat_with_character apiKey s2 name2 input2 uid2 cid2 rand2 now2 http2).chat_id =
        effectiveChatId cid2 rand2) := by
  constructor
  · simp [chat_with_character, hkey, hch]
  · intro s2 name2 input2 uid2 cid2 rand2 now2 http2 ch2 hch2 hg
    rw [chat_of_found _ _ _ _ _ _ _ _ _ ch2 hkey hch2]
    simp [hg]

/-- Witness for C9 at concrete inputs: a provided chat id is discarded
when the character is unknown. -/
theorem chat_unknown_character_discards_chat_id_witness :
    chat_with_character (some "k") storeA "Nobody" "hi" 7 (some "c0") 0 5
        (.raised "down") = ⟨"Character not found.", none, storeA, none⟩ :=
  (chat_unknown_character_discards_chat_id (some "k") storeA "Nobody" "hi" 7 (some "c0") 0 5
      (.raised "down") (by decide) (by decide)).1

/-- C8: for a signed-in user and a selected character, when only an audio
file is supplied and transcription reports the audio as unintelligible,
the chat handler appends the assistant message "Could not understand
audio." to the displayed messages and returns — invoking speech
recognition but never the conversation engine, with chat id, third
output and store untouched. -/
theorem handle_chat_unintelligible_audio (apiKey : Option String) (s : Store)
    (character_name audio_path : String) (user_id_val : Int)
    (chat_messages : List Message) (current_chat_id : Option String)
    (videoSpeech : SpeechResult) (videoExtractOk : Bool)
    (rand now : Nat) (http : HttpResult)
    (h0 : user_id_val ≠ 0) (hname : character_name.isEmpty = false)
    (hpath : audio_path.isEmpty = false) :
    handle_chat apiKey s character_name none (some audio_path) none (some user_id_val)
        chat_messages current_chat_id .unknownValue videoSpeech videoExtractOk rand now
        http =
      ⟨chat_messages ++ [⟨"assistant", "Could not understand audio."⟩],
       current_chat_id, none, s, true, false⟩ := by
  simp [handle_chat, truthyOptInt, truthyOptStr, speech_to_text, orEmpty, h0, hname, hpath]

/-- Witness for C8 at concrete inputs. -/
theorem handle_chat_unintelligible_audio_witness :
    handle_chat (some "k") storeA "Chuck the Clown" none (some "a.wav") none (some 7)
        [] none .unknownValue .unknownValue true 0 5 (.raised "x") =
      ⟨[⟨"assistant", "Could not understand audio."⟩], none, none, storeA, true, false⟩ :=
  handle_chat_unintelligible_audio (some "k") storeA "Chuck the Clown" "a.wav" 7 [] none
    .unknownValue true 0 5 (.raised "x") (by decide) (by decide) (by decide)

/-- C10: the handler treats the numeric user id 0 as not signed in:
`sign_in` accepts the input "0" and returns a welcome with user id 0,
yet `handle_chat` invoked with user id 0 returns the sign-in reminder
and invokes neither speech recognition nor the conversation engine. -/
theorem handle_chat_user_id_zero_not_signed_in (apiKey : Option String) (s : Store)
    (character_name : String) (user_input audio_file video_file : Option String)
    (chat_messages : List Message) (current_chat_id : Option String)
    (audioSpeech videoSpeech : SpeechResult) (videoExtractOk : Bool)
    (rand now : Nat) (http : HttpResult) :
    sign_in "0" = ("Welcome, User 0!", some 0) ∧
    handle_chat apiKey s character_name user_input audio_file video_file (some 0)
        chat_messages current_chat_id audioSpeech videoSpeech videoExtractOk rand now
        http =
      ⟨chat_messages, current_chat_id,
       some "Please sign in with a numeric User ID first!", s, false, false⟩ := by
  constructor
  · decide
  · simp [handle_chat, truthyOptInt]

end Chatbot
